import Mathlib

/-!
Shallow embedding of `main.go` from the metalab-spaceapi repository.

The program serves a SpaceAPI status document over HTTP.  A long-lived
template value `spaceApiData` holds the static facility metadata; per
request, `fetchLabState` queries an upstream status endpoint, maps its
`status` field onto a tri-state open flag, and `handleSpaceApiV15`
merges the result into the template and serializes it with Go's
`encoding/json` semantics (struct tags with `omitempty`, field order =
declaration order).

External collaborators (the HTTP transport and the upstream endpoint)
are modelled as explicit inputs: an `UpstreamResult` captures the three
outcomes the Go code distinguishes (transport failure before a body is
read, a body whose `json.Unmarshal` succeeds, a body whose unmarshal
fails — the Go code ignores the unmarshal error, leaving the struct at
its zero value, and this model reproduces that).
-/

namespace MetalabSpaceApi

/-! ### JSON rendering (model of `encoding/json` output) -/

/-- One hexadecimal digit, lower case, as used by Go's JSON escaper. -/
def hexDigit (n : Nat) : Char :=
  if n < 10 then Char.ofNat (48 + n) else Char.ofNat (87 + n)

/-- Escape a single character the way Go's `encoding/json` string encoder
does (HTML-escaping enabled, its default for `json.Marshal`). -/
def jsonEscapeChar (c : Char) : String :=
  if c = '"' then "\\\""
  else if c = '\\' then "\\\\"
  else if c = '\x0a' then "\\n"
  else if c = '\x0d' then "\\r"
  else if c = '\x09' then "\\t"
  else if c = '<' then "\\u003c"
  else if c = '>' then "\\u003e"
  else if c = '&' then "\\u0026"
  else if c.toNat < 32 then
    "\\u00" ++ String.mk [hexDigit (c.toNat / 16), hexDigit (c.toNat % 16)]
  else if c.toNat = 0x2028 then "\\u2028"
  else if c.toNat = 0x2029 then "\\u2029"
  else String.singleton c

/-- Escape every character of a string for a JSON string literal. -/
def jsonEscape (s : String) : String :=
  String.join (s.data.map jsonEscapeChar)

/-- Render a Go string as a JSON string value. -/
def jsonStr (s : String) : String := "\"" ++ jsonEscape s ++ "\""

/-- Render a Go bool as a JSON value. -/
def jsonBool (b : Bool) : String := if b then "true" else "false"

/-- Render a Go integer as a JSON value. -/
def jsonInt (n : Int) : String := toString n

/-- Digits of a natural number, most significant first. -/
def natDigits (n : Nat) : List Char :=
  (Nat.toDigits 10 n)

/-- Insert a decimal point `k` digits from the right of a digit string,
zero-padding on the left so an integer part always exists.  Used to print
a scaled decimal mantissa. -/
def insertPoint (s : List Char) (k : Nat) : List Char :=
  let s := if s.length ≤ k then List.replicate (k + 1 - s.length) '0' ++ s else s
  s.take (s.length - k) ++ ['.'] ++ s.drop (s.length - k)

/-- Render a rational as Go renders a `float64`: the shortest decimal
representation.  The `float64` constants in this program are exact short
decimals, for which the shortest representation is the decimal literal
itself; rationals without a terminating decimal expansion cannot arise
from the program's data. -/
def jsonNum (q : ℚ) : String :=
  if q.den = 1 then toString q.num
  else
    match (List.range 18).find? (fun k => 10 ^ k % q.den = 0) with
    | some k =>
        let m : Int := q.num * ((10 ^ k : Nat) / q.den)
        let sign := if m < 0 then "-" else ""
        sign ++ String.mk (insertPoint (natDigits m.natAbs) k)
    | none => toString q.num ++ "/" ++ toString q.den

/-- Render an already-rendered list of field key/value pairs as a JSON
object, in order, as `encoding/json` does for a struct. -/
def renderObject (fs : List (String × String)) : String :=
  "\x7b" ++ String.intercalate "," (fs.map (fun kv => "\"" ++ kv.1 ++ "\":" ++ kv.2)) ++ "\x7d"

/-- Render already-rendered element values as a JSON array. -/
def jsonArr (vs : List String) : String :=
  "[" ++ String.intercalate "," vs ++ "]"

/-! Field helpers mirroring the `omitempty` struct-tag semantics of
`encoding/json`: a field tagged `omitempty` is omitted when its value is
the zero value of its type (empty string, `0`, `false`, nil pointer,
nil/empty slice); a field without the tag is always emitted. -/

/-- A required string field. -/
def reqStr (k v : String) : List (String × String) := [(k, jsonStr v)]

/-- An `omitempty` string field. -/
def optStr (k v : String) : List (String × String) :=
  if v = "" then [] else [(k, jsonStr v)]

/-- An `omitempty` numeric (`float64`) field. -/
def optNum (k : String) (q : ℚ) : List (String × String) :=
  if q = 0 then [] else [(k, jsonNum q)]

/-- An `omitempty` integer (`int64`) field. -/
def optInt (k : String) (n : Int) : List (String × String) :=
  if n = 0 then [] else [(k, jsonInt n)]

/-- An `omitempty` slice field; the elements are already rendered. -/
def optList (k : String) (vs : List String) : List (String × String) :=
  if vs = [] then [] else [(k, jsonArr vs)]

/-- An `omitempty` pointer-to-struct field; the pointee is already
rendered. -/
def optObj (k : String) : Option String → List (String × String)
  | none => []
  | some s => [(k, s)]

/-- A `*bool` field without `omitempty` (the `state.open` field): a nil
pointer renders as `null`, otherwise the pointee renders. -/
def renderOptBool : Option Bool → String
  | none => "null"
  | some b => jsonBool b

/-! ### Substring search over rendered output -/

/-- Whether `pat` is a prefix of `s`, on character lists. -/
def isPrefixL : List Char → List Char → Bool
  | [], _ => true
  | _ :: _, [] => false
  | a :: as, b :: bs => a == b && isPrefixL as bs

/-- Whether `pat` occurs as a contiguous sublist of `s`. -/
def hasSubL (pat : List Char) : List Char → Bool
  | [] => pat.isEmpty
  | b :: bs => isPrefixL pat (b :: bs) || hasSubL pat bs

/-- Whether the byte string `pat` occurs in the byte string `s`. -/
def containsSub (s pat : String) : Bool := hasSubL pat.data s.data

/-! ### The schema model: the struct types of `main.go`

Go `float64` fields are modelled as exact rationals (no claim depends on
floating-point rounding; the program's constants are exact short
decimals).  Go pointers become `Option`, slices become `List`, `int64`
becomes `Int`.  Field names and order follow the source. -/

/-- StateIcon represents the URLs for state icons. -/
structure StateIcon where
  Open : String
  Closed : String
deriving DecidableEq

/-- State represents the current state of the space. -/
structure State where
  Open : Option Bool
  LastChange : Int
  TriggerPerson : String
  Message : String
  Icon : Option StateIcon
deriving DecidableEq

/-- Area represents a physical area within the space. -/
structure Area where
  Name : String
  Description : String
  SquareMeters : ℚ
deriving DecidableEq

/-- Location represents the physical location of the space. -/
structure Location where
  Address : String
  Lat : ℚ
  Lon : ℚ
  Timezone : String
  CountryCode : String
  Hint : String
  Areas : List Area
deriving DecidableEq

/-- SpaceFed represents SpaceFED authentication information. -/
structure SpaceFed where
  SpaceNet : Bool
  SpaceSAML : Bool
deriving DecidableEq

/-- Event represents an event in the space. -/
structure Event where
  Name : String
  Type' : String
  Timestamp : Int
  Extra : String
deriving DecidableEq

/-- Keymaster represents a person who has access to the space. -/
structure Keymaster where
  Name : String
  IRCNick : String
  Phone : String
  Email : String
  Twitter : String
  XMPP : String
  Mastodon : String
  Matrix : String
deriving DecidableEq

/-- Contact contains various contact methods for the space. -/
structure Contact where
  Phone : String
  SIP : String
  Keymasters : List Keymaster
  IRC : String
  Twitter : String
  Mastodon : String
  Facebook : String
  Identica : String
  Foursquare : String
  Email : String
  ML : String
  XMPP : String
  IssueMail : String
  Gopher : String
  Matrix : String
  Mumble : String
deriving DecidableEq

/-- BaseSensor contains common sensor fields (embedded in each sensor
struct; `encoding/json` inlines the embedded fields first). -/
structure BaseSensor where
  Location : String
  Name : String
  Description : String
  LastChange : Int
deriving DecidableEq

/-- TempSensor represents a temperature sensor. -/
structure TempSensor where
  base : BaseSensor
  Value : ℚ
  Unit : String
deriving DecidableEq

/-- CO2Sensor represents a CO2 sensor. -/
structure CO2Sensor where
  base : BaseSensor
  Value : ℚ
  Unit : String
deriving DecidableEq

/-- DoorSensor represents a door lock sensor. -/
structure DoorSensor where
  base : BaseSensor
  Value : Bool
deriving DecidableEq

/-- BarometerSensor represents a barometer sensor. -/
structure BarometerSensor where
  base : BaseSensor
  Value : ℚ
  Unit : String
deriving DecidableEq

/-- RadiationSensor represents a radiation sensor. -/
structure RadiationSensor where
  base : BaseSensor
  Value : ℚ
  Unit : String
  DeadTime : ℚ
  ConversionFactor : ℚ
deriving DecidableEq

/-- RadiationSensors represents all radiation sensor types. -/
structure RadiationSensors where
  Alpha : List RadiationSensor
  Beta : List RadiationSensor
  Gamma : List RadiationSensor
  BetaGamma : List RadiationSensor
deriving DecidableEq

/-- HumiditySensor represents a humidity sensor. -/
structure HumiditySensor where
  base : BaseSensor
  Value : ℚ
  Unit : String
deriving DecidableEq

/-- BeverageSensor represents a beverage supply sensor. -/
structure BeverageSensor where
  base : BaseSensor
  Value : ℚ
  Unit : String
deriving DecidableEq

/-- Sensors represent various sensor data in the space. -/
structure Sensors where
  Temperature : List TempSensor
  CarbonDioxide : List CO2Sensor
  DoorLocked : List DoorSensor
  Barometer : List BarometerSensor
  Radiation : Option RadiationSensors
  Humidity : List HumiditySensor
  BeverageSupply : List BeverageSensor
deriving DecidableEq

/-- Feed represents a generic feed URL with type. -/
structure Feed where
  Type' : String
  URL : String
deriving DecidableEq

/-- Feeds represents various feeds available for the space. -/
structure Feeds where
  Blog : Option Feed
  Wiki : Option Feed
  Calendar : Option Feed
  Flickr : Option Feed
deriving DecidableEq

/-- Link represents external links related to the space. -/
structure Link where
  Name : String
  Description : String
  URL : String
deriving DecidableEq

/-- Cache represents caching information. -/
structure Cache where
  Schedule : String
deriving DecidableEq

/-- RadioShow represents information about the space's radio show. -/
structure RadioShow where
  Name : String
  URL : String
  Type' : String
  StartTime : String
  EndTime : String
  StreamURL : String
  StreamType : String
  Description : String
  Tags : List String
deriving DecidableEq

/-- SpaceAPIv15 represents the main SpaceAPI v15 structure. -/
structure SpaceAPIv15 where
  APICompatibility : List String
  Space : String
  Logo : String
  URL : String
  Location : Option Location
  SpaceFed : Option SpaceFed
  Cam : List String
  State : Option State
  Events : List Event
  Contact : Option Contact
  Sensors : Option Sensors
  Feeds : Option Feeds
  Links : List Link
  Cache : Option Cache
  Projects : List String
  RadioShow : Option RadioShow
deriving DecidableEq

/-! ### Marshalling: each struct's JSON fields per its tags -/

/-- JSON fields of `StateIcon` (both required). -/
def stateIconFields (i : StateIcon) : List (String × String) :=
  reqStr "open" i.Open ++ reqStr "closed" i.Closed

/-- JSON fields of `State`: `open` has no `omitempty` (a nil `*bool`
renders as `null`); the rest are `omitempty`. -/
def stateFields (s : State) : List (String × String) :=
  [("open", renderOptBool s.Open)]
    ++ optInt "lastchange" s.LastChange
    ++ optStr "trigger_person" s.TriggerPerson
    ++ optStr "message" s.Message
    ++ optObj "icon" (s.Icon.map (fun i => renderObject (stateIconFields i)))

/-- JSON fields of `Area`. -/
def areaFields (a : Area) : List (String × String) :=
  optStr "name" a.Name ++ optStr "description" a.Description
    ++ [("square_meters", jsonNum a.SquareMeters)]

/-- JSON fields of `Location` (all `omitempty`). -/
def locationFields (l : Location) : List (String × String) :=
  optStr "address" l.Address
    ++ optNum "lat" l.Lat
    ++ optNum "lon" l.Lon
    ++ optStr "timezone" l.Timezone
    ++ optStr "country_code" l.CountryCode
    ++ optStr "hint" l.Hint
    ++ optList "areas" (l.Areas.map (fun a => renderObject (areaFields a)))

/-- JSON fields of `SpaceFed` (both required). -/
def spaceFedFields (f : SpaceFed) : List (String × String) :=
  [("spacenet", jsonBool f.SpaceNet), ("spacesaml", jsonBool f.SpaceSAML)]

/-- JSON fields of `Event`. -/
def eventFields (e : Event) : List (String × String) :=
  reqStr "name" e.Name ++ reqStr "type" e.Type'
    ++ [("timestamp", jsonInt e.Timestamp)] ++ optStr "extra" e.Extra

/-- JSON fields of `Keymaster` (all `omitempty`). -/
def keymasterFields (k : Keymaster) : List (String × String) :=
  optStr "name" k.Name ++ optStr "irc_nick" k.IRCNick ++ optStr "phone" k.Phone
    ++ optStr "email" k.Email ++ optStr "twitter" k.Twitter ++ optStr "xmpp" k.XMPP
    ++ optStr "mastodon" k.Mastodon ++ optStr "matrix" k.Matrix

/-- JSON fields of `Contact` (all `omitempty`). -/
def contactFields (c : Contact) : List (String × String) :=
  optStr "phone" c.Phone ++ optStr "sip" c.SIP
    ++ optList "keymasters" (c.Keymasters.map (fun k => renderObject (keymasterFields k)))
    ++ optStr "irc" c.IRC ++ optStr "twitter" c.Twitter ++ optStr "mastodon" c.Mastodon
    ++ optStr "facebook" c.Facebook ++ optStr "identica" c.Identica
    ++ optStr "foursquare" c.Foursquare ++ optStr "email" c.Email ++ optStr "ml" c.ML
    ++ optStr "xmpp" c.XMPP ++ optStr "issue_mail" c.IssueMail ++ optStr "gopher" c.Gopher
    ++ optStr "matrix" c.Matrix ++ optStr "mumble" c.Mumble

/-- JSON fields contributed by an embedded `BaseSensor`. -/
def baseSensorFields (b : BaseSensor) : List (String × String) :=
  reqStr "location" b.Location ++ optStr "name" b.Name
    ++ optStr "description" b.Description ++ optInt "lastchange" b.LastChange

/-- JSON fields of `TempSensor`. -/
def tempSensorFields (t : TempSensor) : List (String × String) :=
  baseSensorFields t.base ++ [("value", jsonNum t.Value)] ++ reqStr "unit" t.Unit

/-- JSON fields of `CO2Sensor`. -/
def co2SensorFields (t : CO2Sensor) : List (String × String) :=
  baseSensorFields t.base ++ [("value", jsonNum t.Value)] ++ reqStr "unit" t.Unit

/-- JSON fields of `DoorSensor`. -/
def doorSensorFields (t : DoorSensor) : List (String × String) :=
  baseSensorFields t.base ++ [("value", jsonBool t.Value)]

/-- JSON fields of `BarometerSensor`. -/
def barometerSensorFields (t : BarometerSensor) : List (String × String) :=
  baseSensorFields t.base ++ [("value", jsonNum t.Value)] ++ reqStr "unit" t.Unit

/-- JSON fields of `RadiationSensor`. -/
def radiationSensorFields (t : RadiationSensor) : List (String × String) :=
  baseSensorFields t.base ++ [("value", jsonNum t.Value)] ++ reqStr "unit" t.Unit
    ++ optNum "dead_time" t.DeadTime ++ optNum "conversion_factor" t.ConversionFactor

/-- JSON fields of `RadiationSensors`. -/
def radiationSensorsFields (r : RadiationSensors) : List (String × String) :=
  optList "alpha" (r.Alpha.map (fun s => renderObject (radiationSensorFields s)))
    ++ optList "beta" (r.Beta.map (fun s => renderObject (radiationSensorFields s)))
    ++ optList "gamma" (r.Gamma.map (fun s => renderObject (radiationSensorFields s)))
    ++ optList "beta_gamma" (r.BetaGamma.map (fun s => renderObject (radiationSensorFields s)))

/-- JSON fields of `HumiditySensor`. -/
def humiditySensorFields (t : HumiditySensor) : List (String × String) :=
  baseSensorFields t.base ++ [("value", jsonNum t.Value)] ++ reqStr "unit" t.Unit

/-- JSON fields of `BeverageSensor`. -/
def beverageSensorFields (t : BeverageSensor) : List (String × String) :=
  baseSensorFields t.base ++ [("value", jsonNum t.Value)] ++ reqStr "unit" t.Unit

/-- JSON fields of `Sensors` (all `omitempty`). -/
def sensorsFields (s : Sensors) : List (String × String) :=
  optList "temperature" (s.Temperature.map (fun t => renderObject (tempSensorFields t)))
    ++ optList "carbondioxide" (s.CarbonDioxide.map (fun t => renderObject (co2SensorFields t)))
    ++ optList "door_locked" (s.DoorLocked.map (fun t => renderObject (doorSensorFields t)))
    ++ optList "barometer" (s.Barometer.map (fun t => renderObject (barometerSensorFields t)))
    ++ optObj "radiation" (s.Radiation.map (fun r => renderObject (radiationSensorsFields r)))
    ++ optList "humidity" (s.Humidity.map (fun t => renderObject (humiditySensorFields t)))
    ++ optList "beverage_supply" (s.BeverageSupply.map (fun t => renderObject (beverageSensorFields t)))

/-- JSON fields of `Feed` (`type` is `omitempty`, `url` required). -/
def feedFields (f : Feed) : List (String × String) :=
  optStr "type" f.Type' ++ reqStr "url" f.URL

/-- JSON fields of `Feeds` (all `omitempty`). -/
def feedsFields (f : Feeds) : List (String × String) :=
  optObj "blog" (f.Blog.map (fun x => renderObject (feedFields x)))
    ++ optObj "wiki" (f.Wiki.map (fun x => renderObject (feedFields x)))
    ++ optObj "calendar" (f.Calendar.map (fun x => renderObject (feedFields x)))
    ++ optObj "flickr" (f.Flickr.map (fun x => renderObject (feedFields x)))

/-- JSON fields of `Link`. -/
def linkFields (l : Link) : List (String × String) :=
  reqStr "name" l.Name ++ optStr "description" l.Description ++ reqStr "url" l.URL

/-- JSON fields of `Cache`. -/
def cacheFields (c : Cache) : List (String × String) :=
  reqStr "schedule" c.Schedule

/-- JSON fields of `RadioShow`. -/
def radioShowFields (r : RadioShow) : List (String × String) :=
  reqStr "name" r.Name ++ reqStr "url" r.URL ++ reqStr "type" r.Type'
    ++ optStr "start_time" r.StartTime ++ optStr "end_time" r.EndTime
    ++ optStr "stream_url" r.StreamURL ++ optStr "stream_type" r.StreamType
    ++ optStr "description" r.Description
    ++ optList "tags" (r.Tags.map jsonStr)

/-- JSON fields of the root `SpaceAPIv15` struct, in declaration order.
`api_compatibility` and `space` carry no `omitempty`; everything else is
`omitempty`. -/
def spaceAPIFields (d : SpaceAPIv15) : List (String × String) :=
  [("api_compatibility", jsonArr (d.APICompatibility.map jsonStr))]
    ++ [("space", jsonStr d.Space)]
    ++ optStr "logo" d.Logo
    ++ optStr "url" d.URL
    ++ optObj "location" (d.Location.map (fun l => renderObject (locationFields l)))
    ++ optObj "spacefed" (d.SpaceFed.map (fun f => renderObject (spaceFedFields f)))
    ++ optList "cam" (d.Cam.map jsonStr)
    ++ optObj "state" (d.State.map (fun s => renderObject (stateFields s)))
    ++ optList "events" (d.Events.map (fun e => renderObject (eventFields e)))
    ++ optObj "contact" (d.Contact.map (fun c => renderObject (contactFields c)))
    ++ optObj "sensors" (d.Sensors.map (fun s => renderObject (sensorsFields s)))
    ++ optObj "feeds" (d.Feeds.map (fun f => renderObject (feedsFields f)))
    ++ optList "links" (d.Links.map (fun l => renderObject (linkFields l)))
    ++ optObj "cache" (d.Cache.map (fun c => renderObject (cacheFields c)))
    ++ optList "projects" (d.Projects.map jsonStr)
    ++ optObj "radio_show" (d.RadioShow.map (fun r => renderObject (radioShowFields r)))

/-- `json.Marshal` of a `*SpaceAPIv15`. -/
def marshalSpaceAPI (d : SpaceAPIv15) : String :=
  renderObject (spaceAPIFields d)

/-! ### The template instance `spaceApiData` -/

/-- The long-lived template document, with the static facility metadata
of `main.go`; fields not listed in the Go composite literal take their
zero values (empty string, `0`, nil).  The two coordinates are the Go
`float64` literals `48.2093723` and `16.356099` as exact rationals. -/
def spaceApiData : SpaceAPIv15 where
  APICompatibility := ["14", "15"]
  Space := "Metalab"
  Logo := "https://metalab.at/wiki/images/9/93/Metalab.at.svg"
  URL := "https://metalab.at"
  Location := some
    { Address := "Verein Metalab, Rathausstraße 6, 1010 Wien, Austria"
      Lat := mkRat 482093723 10000000
      Lon := mkRat 16356099 1000000
      Timezone := "Europe/Vienna"
      CountryCode := "AT"
      Hint := ""
      Areas := [] }
  SpaceFed := some { SpaceNet := false, SpaceSAML := false }
  Cam := []
  State := some
    { Open := none
      LastChange := 0
      TriggerPerson := ""
      Message := ""
      Icon := none }
  Events := []
  Contact := some
    { Phone := "+43 720 002323"
      SIP := "6382"
      Keymasters := []
      IRC := ""
      Twitter := ""
      Mastodon := "@metalab@chaos.social"
      Facebook := ""
      Identica := ""
      Foursquare := ""
      Email := ""
      ML := ""
      XMPP := ""
      IssueMail := ""
      Gopher := ""
      Matrix := ""
      Mumble := "" }
  Sensors := none
  Feeds := none
  Links := [{ Name := "Metalab Wiki", Description := "", URL := "https://metalab.at/wiki" }]
  Cache := none
  Projects := ["https://github.com/metalab", "https://metalab.at/wiki/Projekte_Neu"]
  RadioShow := none

/-! ### The state translator `fetchLabState` -/

/-- The struct `json.Unmarshal` decodes the upstream body into
(`LabStatus` in `fetchLabState`). -/
structure LabStatus where
  status : String
deriving DecidableEq

/-- The observable outcome of the upstream interaction, the external
collaborator of `fetchLabState`: either a transport-level failure
(building or sending the request, or reading the body — the three
early-return error paths), or a body that was read, represented by the
outcome of `json.Unmarshal` on it: `Except.ok` with the decoded struct,
or `Except.error` when the body is not parseable (in which case the Go
struct keeps its zero value, since the code ignores the unmarshal
error). -/
inductive UpstreamResult where
  | transportError (msg : String)
  | success (unmarshal : Except String LabStatus)

/-- `fetchLabState`, returning the Go triple `(*bool, *int64, error)` as
`(Option Bool × Option Int × Option String)`.  On a transport error the
error propagates; otherwise `json.Unmarshal`'s error is ignored (an
unparseable body leaves `r` at its zero value `{status := ""}`), and the
`status` field is mapped: `"open"` to `true`, `"closed"` to `false`,
anything else to the error `"unknown state: <status>"`.  The last-change
pointer is `nil` on every path. -/
def fetchLabState (u : UpstreamResult) : Option Bool × Option Int × Option String :=
  match u with
  | .transportError msg => (none, none, some msg)
  | .success um =>
      let r : LabStatus := match um with
        | .ok r => r
        | .error _ => { status := "" }
      if r.status = "open" then (some true, none, none)
      else if r.status = "closed" then (some false, none, none)
      else (none, none, some ("unknown state: " ++ r.status))

/-! ### The HTTP handler `handleSpaceApiV15` -/

/-- An HTTP response as the handler produces it: status code, the
headers it sets, and the body bytes. -/
structure HttpResponse where
  statusCode : Nat
  headers : List (String × String)
  body : String
deriving DecidableEq

/-- Go's `http.Error`: plain-text content type, nosniff, the message
followed by a newline, with the given status code. -/
def httpError (msg : String) (code : Nat) : HttpResponse where
  statusCode := code
  headers := [("Content-Type", "text/plain; charset=utf-8"),
              ("X-Content-Type-Options", "nosniff")]
  body := msg ++ "\x0a"

/-- The assignment `spaceApiData.State.Open = labState` (line 63 of
`main.go`). -/
def mergeOpen (doc : SpaceAPIv15) (o : Option Bool) : SpaceAPIv15 :=
  { doc with State := doc.State.map (fun s => { s with Open := o }) }

/-- The assignment `spaceApiData.State.LastChange = *labStateLastChange`
(line 65 of `main.go`), taken only when the pointer is non-nil. -/
def mergeLastChange (doc : SpaceAPIv15) (lc : Int) : SpaceAPIv15 :=
  { doc with State := doc.State.map (fun s => { s with LastChange := lc }) }

/-- The successful response: JSON content type, permissive CORS header,
the marshalled document as body, and the implicit status 200 of the
first `Write`. -/
def okResponse (d : SpaceAPIv15) : HttpResponse where
  statusCode := 200
  headers := [("Content-Type", "application/json"),
              ("Access-Control-Allow-Origin", "*")]
  body := marshalSpaceAPI d

/-- `handleSpaceApiV15` as a state transformer: it takes the current
shared template document and the upstream outcome, and returns the
template after the request together with the response written.  On a
fetch/translation error it writes a 500 via `http.Error` and returns
without touching the template.  On success it assigns the returned
open-pointer to `State.Open`, assigns `State.LastChange` only when the
returned last-change pointer is non-nil, then marshals the document and
writes it. -/
def handleSpaceApiV15 (doc : SpaceAPIv15) (u : UpstreamResult) :
    SpaceAPIv15 × HttpResponse :=
  let res := fetchLabState u
  match res.2.2 with
  | some e => (doc, httpError e 500)
  | none =>
      let d := mergeOpen doc res.1
      let d := match res.2.1 with
        | some lc => mergeLastChange d lc
        | none => d
      (d, okResponse d)

/-! ### The route table of `main` -/

/-- The dispatch of the `http.ServeMux` that `main` configures: the two
patterns `"/v14"` and `"/v15"` are plain paths with no method component,
so a request with any method whose path matches is served by
`handleSpaceApiV15`; any other path gets no handler (the mux's 404). -/
def serveMux (method path : String) :
    Option (SpaceAPIv15 → UpstreamResult → SpaceAPIv15 × HttpResponse) :=
  let _ := method
  if path = "/v14" then some handleSpaceApiV15
  else if path = "/v15" then some handleSpaceApiV15
  else none

/-! ### General helper lemmas -/

/-- The last-change pointer returned by `fetchLabState` is nil on every
path. -/
lemma fetch_lastchange_none (u : UpstreamResult) : (fetchLabState u).2.1 = none := by
  rcases u with m | um
  · rfl
  · rcases um with e | r
    · rfl
    · simp only [fetchLabState]
      split_ifs <;> rfl

/-- Exactly one of the state pointer and the error returned by
`fetchLabState` is non-nil. -/
lemma fetch_exclusive (u : UpstreamResult) :
    (fetchLabState u).1.isSome = (fetchLabState u).2.2.isNone := by
  rcases u with m | um
  · rfl
  · rcases um with e | r
    · rfl
    · simp only [fetchLabState]
      split_ifs <;> rfl

/-- On a fetch/translation error the handler returns the document
untouched together with `http.Error`'s 500 response. -/
lemma handle_of_error (doc : SpaceAPIv15) (u : UpstreamResult) (msg : String)
    (h : (fetchLabState u).2.2 = some msg) :
    handleSpaceApiV15 doc u = (doc, httpError msg 500) := by
  simp only [handleSpaceApiV15, h]

/-- On a successful fetch the handler merges the open pointer into the
document and serializes it; the last-change branch is never taken since
the last-change pointer is always nil. -/
lemma handle_of_ok (doc : SpaceAPIv15) (u : UpstreamResult)
    (h : (fetchLabState u).2.2 = none) :
    handleSpaceApiV15 doc u =
      (mergeOpen doc (fetchLabState u).1, okResponse (mergeOpen doc (fetchLabState u).1)) := by
  simp only [handleSpaceApiV15, h, fetch_lastchange_none]

/-- Merging the same open pointer twice is the same as merging it
once. -/
lemma mergeOpen_idem (doc : SpaceAPIv15) (o : Option Bool) :
    mergeOpen (mergeOpen doc o) o = mergeOpen doc o := by
  rcases doc with ⟨_, _, _, _, _, _, _, st, _, _, _, _, _, _, _, _⟩
  rcases st with _ | s
  · rfl
  · rfl

/-- Key membership in an `omitempty` string field. -/
lemma mem_fst_optStr (x k v : String) :
    x ∈ (optStr k v).map Prod.fst ↔ x = k ∧ v ≠ "" := by
  unfold optStr; split_ifs <;> simp_all

/-- Key membership in an `omitempty` numeric field. -/
lemma mem_fst_optNum (x k : String) (q : ℚ) :
    x ∈ (optNum k q).map Prod.fst ↔ x = k ∧ q ≠ 0 := by
  unfold optNum; split_ifs <;> simp_all

/-- Key membership in an `omitempty` integer field. -/
lemma mem_fst_optInt (x k : String) (n : Int) :
    x ∈ (optInt k n).map Prod.fst ↔ x = k ∧ n ≠ 0 := by
  unfold optInt; split_ifs <;> simp_all

/-- Key membership in an `omitempty` slice field. -/
lemma mem_fst_optList (x k : String) (vs : List String) :
    x ∈ (optList k vs).map Prod.fst ↔ x = k ∧ vs ≠ [] := by
  unfold optList; split_ifs <;> simp_all

/-- Key membership in an `omitempty` pointer field. -/
lemma mem_fst_optObj (x k : String) (o : Option String) :
    x ∈ (optObj k o).map Prod.fst ↔ x = k ∧ o ≠ none := by
  rcases o with _ | s <;> simp [optObj]

/-- Key membership in a required string field. -/
lemma mem_fst_reqStr (x k v : String) :
    x ∈ (reqStr k v).map Prod.fst ↔ x = k := by
  simp [reqStr]

/-! ### The claims -/

/-- C1: for an upstream body whose `status` field is the literal
`"open"`, `fetchLabState` returns `open = true` with a nil timestamp and
no error; for `"closed"` it returns `open = false` with a nil timestamp
and no error; for any other status value it returns an error and no
state; and for an empty or unparseable field (the unmarshal failed and
the struct kept its zero value) it likewise returns an error and no
state. -/
theorem fetchLabState_status_mapping (s e : String) :
    fetchLabState (.success (.ok { status := "open" })) = (some true, none, none)
  ∧ fetchLabState (.success (.ok { status := "closed" })) = (some false, none, none)
  ∧ (s ≠ "open" → s ≠ "closed" →
      fetchLabState (.success (.ok { status := s })) = (none, none, some ("unknown state: " ++ s)))
  ∧ fetchLabState (.success (.error e)) = (none, none, some ("unknown state: " ++ "")) := by
  refine ⟨rfl, rfl, fun h1 h2 => ?_, rfl⟩
  simp [fetchLabState, h1, h2]

/-- Witness for C1 at the concrete unknown literal `"maybe"`. -/
theorem fetchLabState_status_mapping_witness :
    fetchLabState (.success (.ok { status := "maybe" })) =
      (none, none, some ("unknown state: " ++ "maybe")) :=
  (fetchLabState_status_mapping "maybe" "").2.2.1 (by decide) (by decide)

/-- C2: whenever the fetch or the translation fails, the handler
responds with `http.Error` at status 500 carrying the error text
followed by a newline, and returns the shared template document
completely unchanged; no schema document is marshalled or emitted. -/
theorem handler_error_no_document (doc : SpaceAPIv15) (u : UpstreamResult) (msg : String)
    (h : (fetchLabState u).2.2 = some msg) :
    handleSpaceApiV15 doc u = (doc, httpError msg 500)
  ∧ (handleSpaceApiV15 doc u).2.statusCode = 500
  ∧ (handleSpaceApiV15 doc u).2.body = msg ++ "\x0a"
  ∧ (handleSpaceApiV15 doc u).1 = doc := by
  have he := handle_of_error doc u msg h
  exact ⟨he, by rw [he]; rfl, by rw [he]; rfl, by rw [he]⟩

/-- Witness for C2 at a concrete transport failure. -/
theorem handler_error_no_document_witness :
    handleSpaceApiV15 spaceApiData (.transportError "connection refused") =
      (spaceApiData, httpError "connection refused" 500) :=
  (handler_error_no_document spaceApiData (.transportError "connection refused")
    "connection refused" rfl).1

/-- C10: on every path of `fetchLabState` exactly one of the returned
state pointer and the returned error is non-nil, the returned
last-change pointer is always nil, and consequently the handler's
timestamp-merge branch never changes `State.LastChange` of the shared
document. -/
theorem fetchLabState_exclusive_no_timestamp (u : UpstreamResult) (doc : SpaceAPIv15) :
    (fetchLabState u).1.isSome = (fetchLabState u).2.2.isNone
  ∧ (fetchLabState u).2.1 = none
  ∧ ((handleSpaceApiV15 doc u).1.State.map fun s => s.LastChange)
      = doc.State.map fun s => s.LastChange := by
  refine ⟨fetch_exclusive u, fetch_lastchange_none u, ?_⟩
  cases herr : (fetchLabState u).2.2 with
  | some msg => rw [handle_of_error doc u msg herr]
  | none =>
      rw [handle_of_ok doc u herr]
      rcases doc with ⟨_, _, _, _, _, _, _, st, _, _, _, _, _, _, _, _⟩
      rcases st with _ | s <;> rfl

/-- C6 counterexample: an unparseable upstream body does not produce an
error kind distinct from the unknown-state error — the unmarshal error
is ignored, the decoded struct keeps its zero value, and the result
coincides exactly with the unknown-state failure for a recognized
structure carrying an empty status literal. -/
theorem unparseable_body_no_distinct_error :
    fetchLabState (.success (.error "invalid character 'g' looking for beginning of value"))
      = (none, none, some "unknown state: ")
  ∧ fetchLabState (.success (.error "invalid character 'g' looking for beginning of value"))
      = fetchLabState (.success (.ok { status := "" })) :=
  ⟨rfl, rfl⟩

/-- C6 (amended): for every upstream response body that is not parseable
as the expected JSON structure, the unmarshal error is ignored and the
decoded struct keeps its zero value, so `fetchLabState` fails with the
same unknown-state error it uses for an unrecognized (here: empty)
status literal; there is no distinct decode-error kind. -/
theorem unparseable_body_same_unknown_error (e : String) :
    fetchLabState (.success (.error e)) = (none, none, some "unknown state: ")
  ∧ fetchLabState (.success (.error e)) = fetchLabState (.success (.ok { status := "" })) :=
  ⟨rfl, rfl⟩

/-- C9 counterexample: the route `"/v14"` does not accept only the GET
method — the mux registered by `main` uses plain path patterns with no
method component, so a POST request to `"/v14"` is dispatched to the
handler rather than rejected. -/
theorem post_method_dispatched :
    ¬ ("POST" = "GET") ∧ (serveMux "POST" "/v14").isSome = true :=
  ⟨by decide, rfl⟩

/-- Every successful fetch returns either the open or the closed
triple. -/
lemma fetch_cases (u : UpstreamResult) :
    ((fetchLabState u).2.2).isSome = true
  ∨ fetchLabState u = (some true, none, none)
  ∨ fetchLabState u = (some false, none, none) := by
  rcases u with m | um
  · exact Or.inl rfl
  · rcases um with e | r
    · exact Or.inl rfl
    · simp only [fetchLabState]
      split_ifs <;> simp

/-- The handler depends on the upstream interaction only through the
fetch result. -/
lemma handle_congr (doc : SpaceAPIv15) (u v : UpstreamResult)
    (h : fetchLabState u = fetchLabState v) :
    handleSpaceApiV15 doc u = handleSpaceApiV15 doc v := by
  simp only [handleSpaceApiV15, h]

set_option maxRecDepth 1000000 in
/-- The response to the upstream literal `"open"` contains the key-value
pair for the facility name. -/
lemma body_open_has_space :
    containsSub (handleSpaceApiV15 spaceApiData (.success (.ok { status := "open" }))).2.body
      "\"space\":\"Metalab\"" = true := by decide

set_option maxRecDepth 1000000 in
/-- The response to the upstream literal `"closed"` contains the
key-value pair for the facility name. -/
lemma body_closed_has_space :
    containsSub (handleSpaceApiV15 spaceApiData (.success (.ok { status := "closed" }))).2.body
      "\"space\":\"Metalab\"" = true := by decide

set_option maxRecDepth 1000000 in
/-- The response to the upstream literal `"open"` contains no `cam`
key. -/
lemma body_open_no_cam :
    containsSub (handleSpaceApiV15 spaceApiData (.success (.ok { status := "open" }))).2.body
      "\"cam\"" = false := by decide

set_option maxRecDepth 1000000 in
/-- The response to the upstream literal `"closed"` contains no `cam`
key. -/
lemma body_closed_no_cam :
    containsSub (handleSpaceApiV15 spaceApiData (.success (.ok { status := "closed" }))).2.body
      "\"cam\"" = false := by decide

set_option maxRecDepth 1000000 in
/-- The response to the upstream literal `"open"` contains no
`lastchange` key. -/
lemma body_open_no_lastchange :
    containsSub (handleSpaceApiV15 spaceApiData (.success (.ok { status := "open" }))).2.body
      "lastchange" = false := by decide

set_option maxRecDepth 1000000 in
/-- The response to the upstream literal `"closed"` contains no
`lastchange` key. -/
lemma body_closed_no_lastchange :
    containsSub (handleSpaceApiV15 spaceApiData (.success (.ok { status := "closed" }))).2.body
      "lastchange" = false := by decide

set_option maxRecDepth 1000000 in
/-- The response to the upstream literal `"open"` carries
`"open":true` in its state block. -/
lemma body_open_has_open_true :
    containsSub (handleSpaceApiV15 spaceApiData (.success (.ok { status := "open" }))).2.body
      "\"open\":true" = true := by decide

set_option maxRecDepth 1000000 in
/-- The response to the upstream literal `"closed"` carries
`"open":false` in its state block. -/
lemma body_closed_has_open_false :
    containsSub (handleSpaceApiV15 spaceApiData (.success (.ok { status := "closed" }))).2.body
      "\"open\":false" = true := by decide

/-- C3: in the serialized `state` substructure the `open` key is always
present — it is the head field of `stateFields`, whatever the state
value — and the unknown state renders as the explicit absence marker
`null`, distinct from the rendering of every boolean (in particular from
`false`); the two successful responses of the program carry explicit
`"open":true` / `"open":false` pairs. -/
theorem state_open_tristate (st : State) (b : Bool) :
    (stateFields st).lookup "open" = some (renderOptBool st.Open)
  ∧ renderOptBool none = "null"
  ∧ renderOptBool (some false) = "false"
  ∧ renderOptBool none ≠ renderOptBool (some b)
  ∧ containsSub (handleSpaceApiV15 spaceApiData (.success (.ok { status := "open" }))).2.body
      "\"open\":true" = true
  ∧ containsSub (handleSpaceApiV15 spaceApiData (.success (.ok { status := "closed" }))).2.body
      "\"open\":false" = true := by
  refine ⟨rfl, rfl, rfl, ?_, body_open_has_open_true, body_closed_has_open_false⟩
  cases b <;> decide

/-- C4: the translator never supplies a change time (the returned
last-change pointer is nil on every path), the handler therefore leaves
`State.LastChange` of the document unchanged, serialization emits the
`lastchange` key exactly when the stored value is non-zero (`omitempty`),
and for both valid upstream literals the emitted response contains no
`lastchange` key at all. -/
theorem lastchange_only_when_supplied (u : UpstreamResult) (st : State) (doc : SpaceAPIv15) :
    (fetchLabState u).2.1 = none
  ∧ (stateFields st).lookup "lastchange"
      = (if st.LastChange = 0 then none else some (jsonInt st.LastChange))
  ∧ ((handleSpaceApiV15 doc u).1.State.map fun s => s.LastChange)
      = (doc.State.map fun s => s.LastChange)
  ∧ containsSub (handleSpaceApiV15 spaceApiData (.success (.ok { status := "open" }))).2.body
      "lastchange" = false
  ∧ containsSub (handleSpaceApiV15 spaceApiData (.success (.ok { status := "closed" }))).2.body
      "lastchange" = false := by
  refine ⟨fetch_lastchange_none u, ?_, ?_, body_open_no_lastchange, body_closed_no_lastchange⟩
  · rcases st with ⟨o, lc, tp, ms, ic⟩
    simp only [stateFields, optInt, optStr, optObj]
    rcases ic with _ | i <;> split_ifs <;> rfl
  · cases herr : (fetchLabState u).2.2 with
    | some msg => rw [handle_of_error doc u msg herr]
    | none =>
        rw [handle_of_ok doc u herr]
        rcases doc with ⟨_, _, _, _, _, _, _, s, _, _, _, _, _, _, _, _⟩
        rcases s with _ | s <;> rfl

/-- C5: serialization includes the `space` field under its documented
key for every document, includes a `cam` key exactly when the camera
list is non-empty, and every successful response of the program (status
200) contains the literal pair `"space":"Metalab"` and no `"cam"`
key. -/
theorem serialization_space_present_cam_absent (d : SpaceAPIv15) (u : UpstreamResult)
    (d' : SpaceAPIv15) (resp : HttpResponse)
    (h : handleSpaceApiV15 spaceApiData u = (d', resp)) (h200 : resp.statusCode = 200) :
    (spaceAPIFields d).lookup "space" = some (jsonStr d.Space)
  ∧ ("cam" ∈ (spaceAPIFields d).map Prod.fst ↔ d.Cam ≠ [])
  ∧ containsSub resp.body "\"space\":\"Metalab\"" = true
  ∧ containsSub resp.body "\"cam\"" = false := by
  have hresp : resp = (handleSpaceApiV15 spaceApiData u).2 := by rw [h]
  have hbody : containsSub resp.body "\"space\":\"Metalab\"" = true
      ∧ containsSub resp.body "\"cam\"" = false := by
    rcases fetch_cases u with herr | hok | hok
    · rcases hsome : (fetchLabState u).2.2 with _ | msg
      · rw [hsome] at herr; cases herr
      · exfalso
        rw [hresp, handle_of_error spaceApiData u msg hsome] at h200
        cases h200
    · have := handle_congr spaceApiData u (.success (.ok { status := "open" })) (by rw [hok]; rfl)
      rw [hresp, this]
      exact ⟨body_open_has_space, body_open_no_cam⟩
    · have := handle_congr spaceApiData u (.success (.ok { status := "closed" })) (by rw [hok]; rfl)
      rw [hresp, this]
      exact ⟨body_closed_has_space, body_closed_no_cam⟩
  refine ⟨rfl, ?_, hbody.1, hbody.2⟩
  simp only [spaceAPIFields, List.map_append, List.mem_append, mem_fst_optStr,
    mem_fst_optNum, mem_fst_optInt, mem_fst_optList, mem_fst_optObj, mem_fst_reqStr]
  simp [List.map_eq_nil_iff]

/-- C7: two sequential invocations of the handler with identical
upstream responses produce identical output — the second invocation, run
on the document the first one left behind, returns byte-identical
response and document (there are no upstream-supplied timestamp fields
to differ in). -/
theorem handler_idempotent (doc : SpaceAPIv15) (u : UpstreamResult)
    (_hS : doc.State.isSome = true) :
    handleSpaceApiV15 (handleSpaceApiV15 doc u).1 u = handleSpaceApiV15 doc u := by
  cases herr : (fetchLabState u).2.2 with
  | some msg =>
      have h1 := handle_of_error doc u msg herr
      rw [h1]
      exact handle_of_error doc u msg herr
  | none =>
      have h1 := handle_of_ok doc u herr
      have h2 := handle_of_ok (mergeOpen doc (fetchLabState u).1) u herr
      rw [h1]
      show handleSpaceApiV15 (mergeOpen doc (fetchLabState u).1) u = _
      rw [h2, mergeOpen_idem]

/-- Witness for C7: the template document served twice with the upstream
literal `"open"`. -/
theorem handler_idempotent_witness :
    handleSpaceApiV15
        (handleSpaceApiV15 spaceApiData (.success (.ok { status := "open" }))).1
        (.success (.ok { status := "open" }))
      = handleSpaceApiV15 spaceApiData (.success (.ok { status := "open" })) :=
  handler_idempotent spaceApiData (.success (.ok { status := "open" })) rfl

/-- The document without its dynamic substructure, used to state frame
conditions: every field except `State` is visible here. -/
def staticPart (d : SpaceAPIv15) : SpaceAPIv15 := { d with State := none }

/-- A state value with its two dynamic fields erased, used to state that
the handler touches nothing else inside `State`. -/
def eraseDynamic (s : State) : State := { s with Open := none, LastChange := 0 }

/-- C8: across every request the handler mutates at most `State.Open`
and `State.LastChange`: the document it leaves behind agrees with the
input document on every field outside `State` (including the `links` and
`projects` collections and their order), and inside `State` on
everything except the two dynamic fields. -/
theorem handler_frame (doc : SpaceAPIv15) (st : State) (u : UpstreamResult)
    (_hS : doc.State = some st) :
    staticPart (handleSpaceApiV15 doc u).1 = staticPart doc
  ∧ ((handleSpaceApiV15 doc u).1.State.map eraseDynamic) = doc.State.map eraseDynamic
  ∧ (handleSpaceApiV15 doc u).1.Links = doc.Links
  ∧ (handleSpaceApiV15 doc u).1.Projects = doc.Projects
  ∧ (handleSpaceApiV15 doc u).1.APICompatibility = doc.APICompatibility := by
  cases herr : (fetchLabState u).2.2 with
  | some msg => rw [handle_of_error doc u msg herr]; exact ⟨rfl, rfl, rfl, rfl, rfl⟩
  | none =>
      rw [handle_of_ok doc u herr]
      rcases doc with ⟨_, _, _, _, _, _, _, s, _, _, _, _, _, _, _, _⟩
      rcases s with _ | s <;> exact ⟨rfl, rfl, rfl, rfl, rfl⟩

/-- Witness for C8: the template document, upstream literal `"open"`. -/
theorem handler_frame_witness :
    staticPart (handleSpaceApiV15 spaceApiData (.success (.ok { status := "open" }))).1
      = staticPart spaceApiData
  ∧ ((handleSpaceApiV15 spaceApiData (.success (.ok { status := "open" }))).1.State.map
      eraseDynamic) = spaceApiData.State.map eraseDynamic
  ∧ (handleSpaceApiV15 spaceApiData (.success (.ok { status := "open" }))).1.Links
      = spaceApiData.Links
  ∧ (handleSpaceApiV15 spaceApiData (.success (.ok { status := "open" }))).1.Projects
      = spaceApiData.Projects
  ∧ (handleSpaceApiV15 spaceApiData (.success (.ok { status := "open" }))).1.APICompatibility
      = spaceApiData.APICompatibility :=
  handler_frame spaceApiData
    { Open := none, LastChange := 0, TriggerPerson := "", Message := "", Icon := none }
    (.success (.ok { status := "open" })) rfl

/-- Witness for C5: the concrete request with upstream literal
`"open"`. -/
theorem serialization_space_present_cam_absent_witness :
    (spaceAPIFields spaceApiData).lookup "space" = some (jsonStr "Metalab")
  ∧ ("cam" ∈ (spaceAPIFields spaceApiData).map Prod.fst ↔ spaceApiData.Cam ≠ [])
  ∧ containsSub (handleSpaceApiV15 spaceApiData (.success (.ok { status := "open" }))).2.body
      "\"space\":\"Metalab\"" = true
  ∧ containsSub (handleSpaceApiV15 spaceApiData (.success (.ok { status := "open" }))).2.body
      "\"cam\"" = false :=
  serialization_space_present_cam_absent spaceApiData (.success (.ok { status := "open" }))
    (handleSpaceApiV15 spaceApiData (.success (.ok { status := "open" }))).1
    (handleSpaceApiV15 spaceApiData (.success (.ok { status := "open" }))).2
    rfl rfl

/-- C9 (amended): the two routes bound to API compatibility versions
"14" and "15" are semantically identical — for every method both
dispatch to the same handler `handleSpaceApiV15`, so every request and
upstream response produce the same response on either route — but each
route accepts every HTTP method, not only GET. -/
theorem routes_identical_any_method (m : String) :
    serveMux m "/v14" = some handleSpaceApiV15
  ∧ serveMux m "/v15" = some handleSpaceApiV15
  ∧ serveMux m "/v14" = serveMux m "/v15" := by
  refine ⟨rfl, ?_, ?_⟩ <;> simp [serveMux]

end MetalabSpaceApi
